import Mathlib

/-
Verification development for the NDVI ETL pipeline's raster transform core.

The embedding translates, from the repository source:
  - src/src/transform/compute_ndvi.py : compute_ndvi, clip_raster_to_aoi,
    _reproject_raster;
  - src/src/load/load_to_postgis.py : _utm_epsg_for_lonlat, _reproject_to_epsg;
  - src/main.py : the run_pipeline scene loop.

Machine floats are modelled as idealized floats: a finite value is a rational
number and every non-finite value (NaN or an infinity) is collapsed to none,
which is exactly the distinction numpy's isfinite draws in the source.
External geometry calls (shapely intersects / buffer / box) are abstracted as
an operations record, so theorems about the control flow hold for any geometry
semantics; an axis-aligned-rectangle instance makes everything executable.
-/

set_option autoImplicit false

namespace NdviEtl

/-- Idealized machine float: some q is the finite value q, none is any
non-finite value (NaN or an infinity). -/
abbrev F := Option ℚ

/-- Landsat Collection 2 Level-2 surface-reflectance scale factor, the
constant 0.0000275 from compute_ndvi. -/
def scaleSR : ℚ := 11 / 400000

/-- Landsat Collection 2 Level-2 surface-reflectance offset, the constant
-0.2 from compute_ndvi. -/
def offsetSR : ℚ := -1 / 5

/-- Scaled reflectance raw * scale + offset (compute_ndvi lines 40-41); a
finite sample stays finite and a non-finite sample stays non-finite. -/
def toScaled (raw : F) : F := raw.map (fun v => v * scaleSR + offsetSR)

/-- Elementwise float addition: non-finite if either operand is. -/
def fadd : F → F → F
  | some x, some y => some (x + y)
  | _, _ => none

/-- Elementwise float subtraction: non-finite if either operand is. -/
def fsub : F → F → F
  | some x, some y => some (x - y)
  | _, _ => none

/-- Elementwise float division: a zero divisor or a non-finite operand gives a
non-finite result (the source computes under np.errstate with divide and
invalid errors ignored, so 0/0 is NaN and x/0 is an infinity). -/
def fdiv : F → F → F
  | some x, some y => if y = 0 then none else some (x / y)
  | _, _ => none

/-- Raw NDVI value of one pixel before the nodata fill, mirroring compute_ndvi
lines 40-47: scale both bands, compute (nir - red) / (nir + red), and force
pixels where either scaled operand is non-finite to non-finite
(invalid = isnan-or-inf of either operand; ndvi[invalid] = nan). -/
def ndviPixelRaw (rawRed rawNir : F) : F :=
  let red := toScaled rawRed
  let nir := toScaled rawNir
  let q := fdiv (fsub nir red) (fadd nir red)
  if red.isNone || nir.isNone then none else q

/-- Written NDVI pixel, mirroring compute_ndvi line 53:
np.where(np.isfinite(ndvi), ndvi, -9999.0). -/
def ndviPixelOut (rawRed rawNir : F) : ℚ :=
  match ndviPixelRaw rawRed rawNir with
  | some v => v
  | none => -9999

/-- Affine transform (a, b, c, d, e, f): pixel (col, row) maps to world
coordinates (a * col + b * row + c, d * col + e * row + f), the six-parameter
layout rasterio uses. -/
structure Affine where
  a : ℚ
  b : ℚ
  c : ℚ
  d : ℚ
  e : ℚ
  f : ℚ
deriving DecidableEq

/-- Coordinate reference system attached to a raster: an authority identifier
that may or may not resolve to a numeric EPSG code (crs.to_epsg() can return
None even when a CRS is present). -/
structure Crs where
  epsg : Option ℤ
deriving DecidableEq

/-- Raster metadata: grid shape and transform plus the profile entries the
pipeline reads and writes (CRS, pixel dtype name, band count, nodata). crs is
none when the raster carries no CRS at all. -/
structure RasterMeta where
  width : ℕ
  height : ℕ
  transform : Affine
  crs : Option Crs
  dtype : String
  count : ℕ
  nodata : Option ℚ
deriving DecidableEq

/-- Grid-alignment test from compute_ndvi line 37: the two rasters' (width,
height, transform) triples are equal. -/
def gridAligned (m1 m2 : RasterMeta) : Bool :=
  decide (m1.width = m2.width ∧ m1.height = m2.height ∧ m1.transform = m2.transform)

/-- Single-band input raster: metadata plus the band's samples as stored
(rasterio read(1) returns stored values, declared-nodata pixels included). -/
structure Raster where
  meta : RasterMeta
  data : List F
deriving DecidableEq

/-- Output raster of compute_ndvi: every written sample is a finite number. -/
structure OutRaster where
  meta : RasterMeta
  data : List ℚ
deriving DecidableEq

/-- Error kinds raised by the transform core; each constructor models one of
the ValueError raises in the source. -/
inductive PErr where
  | gridMismatch
  | emptyAOI
  | reprojectionFailure
  | emptyAfterReproj
  | noOverlap
  | missingCRS
deriving DecidableEq

/-- compute_ndvi (compute_ndvi.py lines 32-58): raise when the two bands are
not on the same grid, otherwise scale both bands, compute the NDVI with the
nodata fill per pixel, and write a raster whose profile is copied from the red
band and updated to dtype float32, a single band, and nodata -9999.0. -/
def compute_ndvi (r4 r5 : Raster) : Except PErr OutRaster :=
  if gridAligned r4.meta r5.meta then
    .ok { meta := { r4.meta with dtype := "float32", count := 1, nodata := some (-9999) },
          data := List.zipWith ndviPixelOut r4.data r5.data }
  else
    .error .gridMismatch

/-- Geometry operations used by clip_raster_to_aoi, abstracting the shapely
calls it makes: an intersection test, a fixed-distance buffer, and box
construction from (west, south, east, north) bounds. -/
structure GeomOps (G : Type) where
  intersects : G → G → Bool
  buffer : G → ℚ → G
  boxOf : ℚ × ℚ × ℚ × ℚ → G

/-- Bounds of a raster grid (rasterio array_bounds as used on line 63): world
coordinates of the (0, 0) and (width, height) grid corners, returned as
(west, south, east, north). -/
def arrayBounds (height width : ℕ) (t : Affine) : ℚ × ℚ × ℚ × ℚ :=
  (t.c, t.d * width + t.e * height + t.f, t.a * width + t.b * height + t.c, t.f)

/-- Overlap resolution from clip_raster_to_aoi lines 93-97: accept the
geometry when it intersects the raster footprint; otherwise retry with the
geometry buffered by 1.0 raster unit and, on success, use that buffered
geometry; otherwise raise (ValueError: input shapes do not overlap raster). -/
def resolveOverlap {G : Type} (ops : GeomOps G) (geom fp : G) : Except PErr G :=
  if ops.intersects geom fp then .ok geom
  else if ops.intersects (ops.buffer geom 1) fp then .ok (ops.buffer geom 1)
  else .error .noOverlap

/-- AOI vector file as read by geopandas inside clip_raster_to_aoi, carrying
the outcomes of the reads and conversions the function checks: empty models
aoi.empty after read_file, reprojOk whether to_crs to the raster CRS succeeds,
geomEmptyAfterReproj whether the unioned geometry is empty after reprojection,
and geom the repaired (buffer-0) union expressed in the raster CRS. -/
structure AoiFile (G : Type) where
  empty : Bool
  reprojOk : Bool
  geomEmptyAfterReproj : Bool
  geom : G

/-- Fill value for pixels outside the clip geometry: clip_raster_to_aoi calls
rasterio.mask.mask with nodata=src.nodata, and that routine's documented
behavior uses the given nodata when one is set and otherwise defaults to 0 (it
never substitutes the index sentinel). -/
def maskFillValue (srcNodata : Option ℚ) : ℚ := srcNodata.getD 0

/-- Result of a successful clip: the geometry actually used for masking, the
fill value applied outside it, and the output metadata (the source metadata
with height, width and transform replaced by the cropped grid, line 101). -/
structure ClipResult (G : Type) where
  usedGeom : G
  fill : ℚ
  outMeta : RasterMeta
deriving DecidableEq

/-- clip_raster_to_aoi (compute_ndvi.py lines 60-104): raise if the AOI file
is empty, if it cannot be reprojected to the raster CRS, or if its unioned
geometry is empty after reprojection; then resolve overlap against the raster
footprint (lines 93-97), mask with crop=True and nodata=src.nodata, and write
with the source metadata updated to the cropped height, width and transform.
The cropped grid (cropW, cropH, cropT) computed by the masking routine is
passed in as data. -/
def clip_raster_to_aoi {G : Type} (ops : GeomOps G) (src : RasterMeta)
    (aoi : AoiFile G) (cropW cropH : ℕ) (cropT : Affine) :
    Except PErr (ClipResult G) :=
  if aoi.empty then .error .emptyAOI
  else if aoi.reprojOk = false then .error .reprojectionFailure
  else if aoi.geomEmptyAfterReproj then .error .emptyAfterReproj
  else
    match resolveOverlap ops aoi.geom
        (ops.boxOf (arrayBounds src.height src.width src.transform)) with
    | .error e => .error e
    | .ok g =>
        .ok { usedGeom := g, fill := maskFillValue src.nodata,
              outMeta := { src with width := cropW, height := cropH, transform := cropT } }

/-- Resampling methods the pipeline selects between. -/
inductive Resampling where
  | bilinear
  | nearest
deriving DecidableEq

/-- One per-band reproject call: the resampling method passed and the nodata
values it carries through as src_nodata and dst_nodata. -/
structure BandResample where
  method : Resampling
  srcNodata : Option ℚ
  dstNodata : Option ℚ
deriving DecidableEq

/-- Heads-match test: the first character list is an initial segment of the
second. -/
def leadsList : List Char → List Char → Bool
  | [], _ => true
  | _ :: _, [] => false
  | a :: as, b :: bs => a == b && leadsList as bs

/-- Python str.startswith as used on dtype names in _reproject_to_epsg. -/
def strStartsWith (s p : String) : Bool := leadsList p.data s.data

/-- Band dtype names of a raster (rasterio src.dtypes), one per band; rasterio
profiles carry a single dtype for all bands. -/
def RasterMeta.dtypes (m : RasterMeta) : List String :=
  List.replicate m.count m.dtype

/-- Outcome of a reprojection helper: either the input is returned unchanged
(no destination grid computed, no band resampled), or a resampled output
described band by band. -/
inductive ReprojResult where
  | unchanged
  | resampled (bands : List BandResample)
deriving DecidableEq

/-- Method selection from load_to_postgis._reproject_to_epsg line 132:
bilinear when the band dtype name starts with "float", nearest otherwise. -/
def methodForDtype (dt : String) : Resampling :=
  if strStartsWith dt "float" then .bilinear else .nearest

/-- load_to_postgis._reproject_to_epsg (lines 90-136): raise when the source
has no CRS; return the input unchanged when the source CRS resolves to the
target EPSG code; otherwise compute a destination grid and resample every band
with the dtype-selected method, passing the source nodata value as both
src_nodata and dst_nodata. -/
def reprojectToEpsg (src : RasterMeta) (targetEpsg : ℤ) : Except PErr ReprojResult :=
  match src.crs with
  | none => .error .missingCRS
  | some c =>
      if c.epsg = some targetEpsg then .ok .unchanged
      else
        .ok (.resampled (src.dtypes.map (fun dt =>
          { method := methodForDtype dt, srcNodata := src.nodata,
            dstNodata := src.nodata })))

/-- compute_ndvi._reproject_raster (lines 127-144): always computes a
destination grid and resamples every band with bilinear; there is no
short-circuit when the source CRS already equals the target, and no explicit
nodata arguments are passed (reproject then takes each band's dataset nodata,
which is the source metadata's nodata on both sides because the destination
profile is copied from the source). -/
def reprojectRasterViz (src : RasterMeta) (_targetCrs : Option Crs) : ReprojResult :=
  .resampled (src.dtypes.map (fun _ =>
    { method := .bilinear, srcNodata := src.nodata, dstNodata := src.nodata }))

/-- load_to_postgis._utm_epsg_for_lonlat (lines 18-20): UTM zone from the
centroid longitude, hemisphere from its latitude. -/
def utmEpsgForLonlat (lon lat : ℚ) : ℤ :=
  (if 0 ≤ lat then 32600 else 32700) + (Int.floor ((lon + 180) / 6) + 1)

/-- Scene descriptor consumed by the main loop: the scene id, its two band
rasters, and the cropped grid the masking routine produces for its clip. -/
structure Scene (G : Type) where
  sceneId : String
  r4 : Raster
  r5 : Raster
  cropW : ℕ
  cropH : ℕ
  cropT : Affine

/-- Per-scene body of the main loop (main.py lines 120-133): compute_ndvi then
clip_raster_to_aoi, stopping at the first error. -/
def processScene {G : Type} (ops : GeomOps G) (aoi : AoiFile G) (s : Scene G) :
    Except PErr (ClipResult G) :=
  match compute_ndvi s.r4 s.r5 with
  | .error e => .error e
  | .ok ndvi => clip_raster_to_aoi ops ndvi.meta aoi s.cropW s.cropH s.cropT

/-- Batch summary accumulated by run_pipeline (main.py lines 114-152): totals
and one (scene id, cause) entry per failed scene. -/
structure Summary where
  total : ℕ
  succeeded : ℕ
  failed : ℕ
  failures : List (String × PErr)
deriving DecidableEq

/-- One iteration of the run_pipeline loop: any error from the scene body is
caught at the scene boundary, counted, and recorded with the scene id. -/
def pipelineStep {G : Type} (ops : GeomOps G) (aoi : AoiFile G)
    (acc : Summary) (s : Scene G) : Summary :=
  match processScene ops aoi s with
  | .ok _ =>
      { acc with total := acc.total + 1, succeeded := acc.succeeded + 1 }
  | .error e =>
      { acc with total := acc.total + 1, failed := acc.failed + 1,
                 failures := acc.failures ++ [(s.sceneId, e)] }

/-- run_pipeline scene loop (main.py lines 114-152): every scene is attempted
in order; the loop never aborts on a scene failure. -/
def run_pipeline {G : Type} (ops : GeomOps G) (aoi : AoiFile G)
    (scenes : List (Scene G)) : Summary :=
  scenes.foldl (pipelineStep ops aoi)
    { total := 0, succeeded := 0, failed := 0, failures := [] }

/-- Failure record a scene contributes to the summary, if any. -/
def sceneFailRecord {G : Type} (ops : GeomOps G) (aoi : AoiFile G)
    (s : Scene G) : Option (String × PErr) :=
  match processScene ops aoi s with
  | .ok _ => none
  | .error e => some (s.sceneId, e)

/-- Whether a scene's processing succeeds. -/
def sceneOk {G : Type} (ops : GeomOps G) (aoi : AoiFile G) (s : Scene G) : Bool :=
  match processScene ops aoi s with
  | .ok _ => true
  | .error _ => false

/-- Data of a compute_ndvi result: the written band on success, the empty list
on error. -/
def outData (r : Except PErr OutRaster) : List ℚ :=
  match r with
  | .ok out => out.data
  | .error _ => []

/-- Axis-aligned rectangle, a concrete geometry instance: the pipeline's AOI
is a bounding-box polygon and a raster footprint is a box. -/
structure Rect where
  xmin : ℚ
  xmax : ℚ
  ymin : ℚ
  ymax : ℚ
deriving DecidableEq

/-- Closed-rectangle intersection test. -/
def Rect.intersects (p q : Rect) : Bool :=
  decide (p.xmin ≤ q.xmax ∧ q.xmin ≤ p.xmax ∧ p.ymin ≤ q.ymax ∧ q.ymin ≤ p.ymax)

/-- Expand a rectangle by d on every side. -/
def Rect.expand (p : Rect) (d : ℚ) : Rect :=
  ⟨p.xmin - d, p.xmax + d, p.ymin - d, p.ymax + d⟩

/-- Rectangle instance of the geometry operations. -/
def rectOps : GeomOps Rect :=
  { intersects := Rect.intersects, buffer := Rect.expand,
    boxOf := fun b => ⟨b.1, b.2.2.1, b.2.1, b.2.2.2⟩ }

/-- North-up unit-pixel transform anchored at the origin. -/
def affine0 : Affine := ⟨1, 0, 0, 0, -1, 0⟩

/-- Working CRS fixture, EPSG 32635. -/
def crs32635 : Crs := ⟨some 32635⟩

/-- Web-Mercator CRS fixture, EPSG 3857. -/
def crs3857 : Crs := ⟨some 3857⟩

/-- Metadata of a 1-by-1 uint16 Landsat band with declared nodata 0 (the
sensor fill value for Collection 2 Level-2 products). -/
def meta0 : RasterMeta :=
  { width := 1, height := 1, transform := affine0, crs := some crs32635,
    dtype := "uint16", count := 1, nodata := some 0 }

/-- Metadata of a 1-by-1 float32 index raster with nodata -9999. -/
def floatMeta : RasterMeta :=
  { width := 1, height := 1, transform := affine0, crs := some crs32635,
    dtype := "float32", count := 1, nodata := some (-9999) }

/-- Metadata identical to floatMeta but with no declared nodata. -/
def noNodataMeta : RasterMeta :=
  { width := 1, height := 1, transform := affine0, crs := some crs32635,
    dtype := "float32", count := 1, nodata := none }

/-- Metadata differing from meta0 in width only. -/
def misMeta : RasterMeta := { meta0 with width := 2 }

/-- One-pixel band with stored value 0 (the declared nodata of meta0). -/
def rasterA : Raster := ⟨meta0, [some 0]⟩

/-- One-pixel band with stored value 65535. -/
def rasterB : Raster := ⟨meta0, [some 65535]⟩

/-- One-pixel band with stored value 1000. -/
def rasterC : Raster := ⟨meta0, [some 1000]⟩

/-- One-pixel band with stored value 1. -/
def rasterOne : Raster := ⟨meta0, [some 1]⟩

/-- Footprint rectangle of the meta0 grid: arrayBounds 1 1 affine0 gives
(0, -1, 1, 0). -/
def fpRect : Rect := ⟨0, 1, -1, 0⟩

/-- AOI whose geometry coincides with the meta0 footprint and whose reads and
conversions all succeed. -/
def aoiGood : AoiFile Rect := ⟨false, true, false, fpRect⟩

/-- AOI at horizontal distance 1 from the meta0 footprint: direct intersection
fails, the 1.0-buffered geometry touches. -/
def gapRect : Rect := ⟨2, 3, -1, 0⟩

/-- AOI file that reads as empty (aoi.empty is true). -/
def emptyAoiFile : AoiFile Rect := ⟨true, true, false, fpRect⟩

/-- Expected clip result for meta0 under aoiGood with a 1-by-1 crop. -/
def clipResult0 : ClipResult Rect := ⟨fpRect, 0, meta0⟩

/-- Scene fixture S1 with two aligned one-pixel bands. -/
def scene1 : Scene Rect := ⟨"S1", rasterA, rasterA, 1, 1, affine0⟩

/-- Scene fixture S2 with two aligned one-pixel bands. -/
def scene2 : Scene Rect := ⟨"S2", rasterA, rasterA, 1, 1, affine0⟩

/-- Band-resample fixture: bilinear carrying nodata -9999 on both sides. -/
def bandBilinear : BandResample := ⟨.bilinear, some (-9999), some (-9999)⟩

/-- Closed form of the written pixel when both raw samples are finite: the
nodata sentinel when the scaled sum vanishes, the index quotient otherwise. -/
theorem ndviPixelOut_some_some (r n : ℚ) :
    ndviPixelOut (some r) (some n) =
      if (n * scaleSR + offsetSR) + (r * scaleSR + offsetSR) = 0 then (-9999 : ℚ)
      else ((n * scaleSR + offsetSR) - (r * scaleSR + offsetSR)) /
        ((n * scaleSR + offsetSR) + (r * scaleSR + offsetSR)) := by
  simp only [ndviPixelOut, ndviPixelRaw, toScaled, Option.map_some', Option.isNone_some,
    Bool.or_self, Bool.false_eq_true, if_false, fadd, fsub, fdiv]
  by_cases h : n * scaleSR + offsetSR + (r * scaleSR + offsetSR) = 0
  · rw [if_pos h, if_pos h]
  · rw [if_neg h, if_neg h]

/-- Range of the normalized-difference formula: the quotient lies in [-1, 1]
whenever the denominator is nonzero and the two operands do not have strictly
opposite signs. -/
theorem ndviFormulaBounds (x y : ℚ) (_hs : y + x ≠ 0) (hp : 0 ≤ x * y) :
    -1 ≤ (y - x) / (y + x) ∧ (y - x) / (y + x) ≤ 1 := by
  have habs : |y - x| ≤ |y + x| := by
    rcases abs_cases (y - x) with ⟨h1, h2⟩ | ⟨h1, h2⟩ <;>
      rcases abs_cases (y + x) with ⟨h3, h4⟩ | ⟨h3, h4⟩ <;>
        rw [h1, h3] <;> nlinarith
  have hq : |(y - x) / (y + x)| ≤ 1 := by
    rw [abs_div]
    exact div_le_one_of_le₀ habs (abs_nonneg _)
  exact abs_le.mp hq

/-- C1, counterexample. The claim asserts every non-sentinel output pixel lies
in [-1, 1] whenever both scaled operands are finite and their sum is nonzero.
On the grid-aligned pair with stored red sample 1 and NIR sample 65535, both
scaled operands are finite (about -0.19997 and 1.60221), their sum is nonzero,
and the written pixel 720874/560896 (about 1.2852) is not the sentinel and
exceeds 1: the formula is only intrinsically bounded when the two scaled
operands also share a sign, which Landsat scaling does not guarantee. -/
theorem C1_counterexample :
    gridAligned rasterOne.meta rasterB.meta = true ∧
    outData (compute_ndvi rasterOne rasterB) = [720874 / 560896] ∧
    ¬((720874 : ℚ) / 560896 = -9999) ∧ 1 < (720874 : ℚ) / 560896 := by
  have hga : gridAligned meta0 meta0 = true := by simp [gridAligned]
  refine ⟨hga, ?_, by norm_num, by norm_num⟩
  simp only [rasterOne, rasterB, compute_ndvi, hga, if_true, outData, List.zipWith]
  rw [ndviPixelOut_some_some, if_neg (by norm_num [scaleSR, offsetSR])]
  norm_num [scaleSR, offsetSR]

/-- C1, amended: for every pixel whose two scaled operands are finite, whose
scaled sum is nonzero, and whose scaled operands do not have strictly opposite
signs, the written value (nir - red) / (nir + red) lies within [-1, 1]. -/
theorem C1_amended (rawRed rawNir : F) (x y : ℚ)
    (hr : toScaled rawRed = some x) (hn : toScaled rawNir = some y)
    (hsum : x + y ≠ 0) (hsign : 0 ≤ x * y) :
    -1 ≤ ndviPixelOut rawRed rawNir ∧ ndviPixelOut rawRed rawNir ≤ 1 := by
  have hyx : y + x ≠ 0 := by rw [add_comm]; exact hsum
  cases rawRed with
  | none => simp [toScaled] at hr
  | some r =>
      cases rawNir with
      | none => simp [toScaled] at hn
      | some n =>
          simp only [toScaled, Option.map_some', Option.some.injEq] at hr hn
          subst hr; subst hn
          rw [ndviPixelOut_some_some, if_neg hyx]
          exact ndviFormulaBounds _ _ hyx hsign

/-- C1, witness for the amended theorem at stored samples 10000 and 20000. -/
theorem C1_amended_witness :
    -1 ≤ ndviPixelOut (some 10000) (some 20000) ∧
      ndviPixelOut (some 10000) (some 20000) ≤ 1 :=
  C1_amended (some 10000) (some 20000) (3 / 40) (7 / 20)
    (by norm_num [toScaled, scaleSR, offsetSR])
    (by norm_num [toScaled, scaleSR, offsetSR])
    (by norm_num) (by norm_num)

/-- C2. Every written pixel is a finite number: it equals the nodata sentinel
-9999 whenever either scaled operand is non-finite or the scaled sum is zero,
and otherwise it is the finite quotient (nir - red) / (nir + red); NaN and
infinities never reach the output because the final write replaces every
non-finite intermediate with the sentinel. -/
theorem C2_theorem (rawRed rawNir : F) :
    ((toScaled rawRed = none ∨ toScaled rawNir = none ∨
        fadd (toScaled rawNir) (toScaled rawRed) = some 0) →
      ndviPixelOut rawRed rawNir = -9999) ∧
    (ndviPixelOut rawRed rawNir = -9999 ∨
      ∃ x y : ℚ, toScaled rawRed = some x ∧ toScaled rawNir = some y ∧
        y + x ≠ 0 ∧ ndviPixelOut rawRed rawNir = (y - x) / (y + x)) := by
  cases rawRed with
  | none =>
      constructor
      · intro _; simp [ndviPixelOut, ndviPixelRaw, toScaled]
      · left; simp [ndviPixelOut, ndviPixelRaw, toScaled]
  | some r =>
      cases rawNir with
      | none =>
          constructor
          · intro _; simp [ndviPixelOut, ndviPixelRaw, toScaled]
          · left; simp [ndviPixelOut, ndviPixelRaw, toScaled]
      | some n =>
          constructor
          · rintro (h | h | h)
            · simp [toScaled] at h
            · simp [toScaled] at h
            · simp only [toScaled, Option.map_some', fadd, Option.some.injEq] at h
              rw [ndviPixelOut_some_some, if_pos h]
          · by_cases h : n * scaleSR + offsetSR + (r * scaleSR + offsetSR) = 0
            · left
              rw [ndviPixelOut_some_some, if_pos h]
            · right
              exact ⟨r * scaleSR + offsetSR, n * scaleSR + offsetSR,
                by simp [toScaled], by simp [toScaled], h,
                by rw [ndviPixelOut_some_some, if_neg h]⟩

/-- C2, witness: at equal stored samples 80000/11 both scaled operands are
exactly zero, the scaled sum is zero, and the written pixel is the sentinel. -/
theorem C2_witness :
    ndviPixelOut (some (80000 / 11)) (some (80000 / 11)) = -9999 :=
  (C2_theorem (some (80000 / 11)) (some (80000 / 11))).1
    (Or.inr (Or.inr (by norm_num [toScaled, fadd, scaleSR, offsetSR])))

/-- C4, counterexample. The claim asserts that a pixel whose raw band value is
the band's declared nodata (sensor fill) value is written as the sentinel. The
red band rasterA declares nodata 0 and stores exactly 0 at its only pixel, yet
with NIR sample 1000 the written pixel is -11/149 (about -0.0738), not -9999:
the bands are read unmasked and a finite fill value scales to a finite
reflectance, so nothing marks it invalid. -/
theorem C4_counterexample :
    rasterA.meta.nodata = some 0 ∧ rasterA.data = [some 0] ∧
    outData (compute_ndvi rasterA rasterC) = [-(11 : ℚ) / 149] ∧
    ¬(-(11 : ℚ) / 149 = -9999) := by
  have hga : gridAligned meta0 meta0 = true := by simp [gridAligned]
  refine ⟨rfl, rfl, ?_, by norm_num⟩
  simp only [rasterA, rasterC, compute_ndvi, hga, if_true, outData, List.zipWith]
  rw [ndviPixelOut_some_some, if_neg (by norm_num [scaleSR, offsetSR])]
  norm_num [scaleSR, offsetSR]

/-- C4, amended: the invalid marking covers exactly the pixels whose converted
value is non-finite, so a sensor-fill pixel is written as the sentinel only
when its converted value is non-finite (for instance a NaN fill in a floating
band); a finite declared fill value is processed like any other sample. -/
theorem C4_amended (rawRed rawNir : F)
    (h : toScaled rawRed = none ∨ toScaled rawNir = none) :
    ndviPixelOut rawRed rawNir = -9999 := by
  cases rawRed with
  | none => simp [ndviPixelOut, ndviPixelRaw, toScaled]
  | some r =>
      cases rawNir with
      | none => simp [ndviPixelOut, ndviPixelRaw, toScaled]
      | some n => simp [toScaled] at h

/-- C4, witness for the amended theorem: a non-finite (NaN) red sample is
written as the sentinel. -/
theorem C4_amended_witness : ndviPixelOut none (some 5) = -9999 :=
  C4_amended none (some 5) (Or.inl (by simp [toScaled]))

/-- C3. Grid validation succeeds exactly when width, height and affine
transform are pairwise identical (exact equality), the test is symmetric in
its two inputs, and a failed test makes compute_ndvi return the grid-mismatch
error before producing any output raster. -/
theorem C3_theorem :
    (∀ m1 m2 : RasterMeta, gridAligned m1 m2 = true ↔
      (m1.width = m2.width ∧ m1.height = m2.height ∧ m1.transform = m2.transform)) ∧
    (∀ m1 m2 : RasterMeta, gridAligned m1 m2 = gridAligned m2 m1) ∧
    (∀ r4 r5 : Raster, gridAligned r4.meta r5.meta = false →
      compute_ndvi r4 r5 = .error .gridMismatch) := by
  refine ⟨?_, ?_, ?_⟩
  · intro m1 m2
    simp [gridAligned]
  · intro m1 m2
    simp only [gridAligned, decide_eq_decide]
    constructor <;> rintro ⟨h1, h2, h3⟩ <;> exact ⟨h1.symm, h2.symm, h3.symm⟩
  · intro r4 r5 h
    simp [compute_ndvi, h]

/-- C3, witness: two rasters differing only in width are rejected with the
grid-mismatch error. -/
theorem C3_witness :
    compute_ndvi ⟨meta0, [some 0]⟩ ⟨misMeta, [some 0]⟩ = .error .gridMismatch :=
  C3_theorem.2.2 ⟨meta0, [some 0]⟩ ⟨misMeta, [some 0]⟩
    (by simp [gridAligned, meta0, misMeta])

/-- C6. Overlap resolution accepts a geometry exactly when the geometry
itself, or the geometry buffered by the fixed distance 1.0, intersects the
raster footprint; it returns the original geometry when direct intersection
holds, the buffered geometry when only the buffered test holds, the no-overlap
error when neither holds; and the geometry a successful clip actually masks
with is exactly the geometry the overlap resolution returned. -/
theorem C6_theorem :
    (∀ (G : Type) (ops : GeomOps G) (geom fp : G),
        (∃ g, resolveOverlap ops geom fp = .ok g) ↔
          (ops.intersects geom fp = true ∨
            ops.intersects (ops.buffer geom 1) fp = true)) ∧
    (∀ (G : Type) (ops : GeomOps G) (geom fp : G),
        ops.intersects geom fp = true → resolveOverlap ops geom fp = .ok geom) ∧
    (∀ (G : Type) (ops : GeomOps G) (geom fp : G),
        ops.intersects geom fp = false →
          ops.intersects (ops.buffer geom 1) fp = true →
          resolveOverlap ops geom fp = .ok (ops.buffer geom 1)) ∧
    (∀ (G : Type) (ops : GeomOps G) (geom fp : G),
        ops.intersects geom fp = false →
          ops.intersects (ops.buffer geom 1) fp = false →
          resolveOverlap ops geom fp = .error PErr.noOverlap) ∧
    (∀ (G : Type) (ops : GeomOps G) (src : RasterMeta) (aoi : AoiFile G)
        (cropW cropH : ℕ) (cropT : Affine) (res : ClipResult G),
        clip_raster_to_aoi ops src aoi cropW cropH cropT = .ok res →
          resolveOverlap ops aoi.geom
            (ops.boxOf (arrayBounds src.height src.width src.transform)) =
            .ok res.usedGeom) := by
  refine ⟨?_, ?_, ?_, ?_, ?_⟩
  · intro G ops geom fp
    cases h1 : ops.intersects geom fp <;>
      cases h2 : ops.intersects (ops.buffer geom 1) fp <;>
        simp [resolveOverlap, h1, h2]
  · intro G ops geom fp h1
    simp [resolveOverlap, h1]
  · intro G ops geom fp h1 h2
    simp [resolveOverlap, h1, h2]
  · intro G ops geom fp h1 h2
    simp [resolveOverlap, h1, h2]
  · intro G ops src aoi cropW cropH cropT res h
    simp only [clip_raster_to_aoi] at h
    by_cases he : aoi.empty = true
    · rw [if_pos he] at h
      exact absurd h (by simp)
    · rw [if_neg he] at h
      by_cases hr : aoi.reprojOk = false
      · rw [if_pos hr] at h
        exact absurd h (by simp)
      · rw [if_neg hr] at h
        by_cases hg : aoi.geomEmptyAfterReproj = true
        · rw [if_pos hg] at h
          exact absurd h (by simp)
        · rw [if_neg hg] at h
          cases hro : resolveOverlap ops aoi.geom
              (ops.boxOf (arrayBounds src.height src.width src.transform)) with
          | error e =>
              rw [hro] at h
              exact absurd h (by simp)
          | ok g =>
              rw [hro] at h
              simp only [Except.ok.injEq] at h
              subst h
              rfl

/-- C6, witness: an AOI rectangle at distance 1 from the footprint fails the
direct test, passes the buffered test, and the buffered geometry is the one
returned for masking. -/
theorem C6_witness :
    resolveOverlap rectOps gapRect fpRect = .ok (rectOps.buffer gapRect 1) :=
  C6_theorem.2.2.1 Rect rectOps gapRect fpRect
    (by norm_num [rectOps, Rect.intersects, gapRect, fpRect])
    (by norm_num [rectOps, Rect.intersects, Rect.expand, gapRect, fpRect])

/-- C5, counterexample. The claim asserts that when the source raster declares
no nodata value, pixels outside the clip geometry are filled with the index
sentinel -9999.0. On a source without nodata the masking call receives
nodata=None and its documented default fill is 0, not -9999: the clip result
below carries fill 0. -/
theorem C5_counterexample :
    noNodataMeta.nodata = none ∧
    clip_raster_to_aoi rectOps noNodataMeta aoiGood 1 1 affine0 =
      .ok { usedGeom := fpRect, fill := 0, outMeta := noNodataMeta } ∧
    ¬((0 : ℚ) = -9999) := by
  have hint : rectOps.intersects aoiGood.geom
      (rectOps.boxOf (arrayBounds noNodataMeta.height noNodataMeta.width
        noNodataMeta.transform)) = true := by
    norm_num [rectOps, aoiGood, fpRect, Rect.intersects, arrayBounds, noNodataMeta, affine0]
  have hro : resolveOverlap rectOps aoiGood.geom
      (rectOps.boxOf (arrayBounds noNodataMeta.height noNodataMeta.width
        noNodataMeta.transform)) = .ok aoiGood.geom := by
    simp only [resolveOverlap]
    rw [if_pos hint]
  refine ⟨rfl, ?_, by norm_num⟩
  simp only [clip_raster_to_aoi]
  rw [if_neg (show ¬(aoiGood.empty = true) by simp [aoiGood]),
    if_neg (show ¬(aoiGood.reprojOk = false) by simp [aoiGood]),
    if_neg (show ¬(aoiGood.geomEmptyAfterReproj = true) by simp [aoiGood]), hro]
  rfl

/-- C5, amended: pixels outside the clip geometry are filled with the source
raster's declared nodata value when one is declared, and with 0 (the masking
routine's default) when the source declares none — not with the index
sentinel; all metadata other than width, height and transform (CRS, dtype,
band count, nodata) is inherited unchanged, and width, height and transform
are replaced by the cropped grid. -/
theorem C5_amended :
    ∀ (G : Type) (ops : GeomOps G) (src : RasterMeta) (aoi : AoiFile G)
      (cropW cropH : ℕ) (cropT : Affine) (res : ClipResult G),
      clip_raster_to_aoi ops src aoi cropW cropH cropT = .ok res →
      ((∀ v, src.nodata = some v → res.fill = v) ∧
        (src.nodata = none → res.fill = 0) ∧
        res.outMeta.crs = src.crs ∧ res.outMeta.dtype = src.dtype ∧
        res.outMeta.count = src.count ∧ res.outMeta.nodata = src.nodata ∧
        res.outMeta.width = cropW ∧ res.outMeta.height = cropH ∧
        res.outMeta.transform = cropT) := by
  intro G ops src aoi cropW cropH cropT res h
  simp only [clip_raster_to_aoi] at h
  by_cases he : aoi.empty = true
  · rw [if_pos he] at h
    exact absurd h (by simp)
  · rw [if_neg he] at h
    by_cases hr : aoi.reprojOk = false
    · rw [if_pos hr] at h
      exact absurd h (by simp)
    · rw [if_neg hr] at h
      by_cases hg : aoi.geomEmptyAfterReproj = true
      · rw [if_pos hg] at h
        exact absurd h (by simp)
      · rw [if_neg hg] at h
        cases hro : resolveOverlap ops aoi.geom
            (ops.boxOf (arrayBounds src.height src.width src.transform)) with
        | error e =>
            rw [hro] at h
            exact absurd h (by simp)
        | ok g =>
            rw [hro] at h
            simp only [Except.ok.injEq] at h
            subst h
            refine ⟨?_, ?_, rfl, rfl, rfl, rfl, rfl, rfl, rfl⟩
            · intro v hv
              simp [maskFillValue, hv]
            · intro hv
              simp [maskFillValue, hv]

/-- C5, witness for the amended theorem: clipping a source with declared
nodata 0 fills with 0 and inherits CRS and dtype. -/
theorem C5_amended_witness :
    clipResult0.fill = 0 ∧ clipResult0.outMeta.crs = meta0.crs ∧
      clipResult0.outMeta.dtype = meta0.dtype := by
  have hint : rectOps.intersects aoiGood.geom
      (rectOps.boxOf (arrayBounds meta0.height meta0.width meta0.transform)) = true := by
    norm_num [rectOps, aoiGood, fpRect, Rect.intersects, arrayBounds, meta0, affine0]
  have hro : resolveOverlap rectOps aoiGood.geom
      (rectOps.boxOf (arrayBounds meta0.height meta0.width meta0.transform)) =
      .ok aoiGood.geom := by
    simp only [resolveOverlap]
    rw [if_pos hint]
  have hclip : clip_raster_to_aoi rectOps meta0 aoiGood 1 1 affine0 = .ok clipResult0 := by
    simp only [clip_raster_to_aoi]
    rw [if_neg (show ¬(aoiGood.empty = true) by simp [aoiGood]),
      if_neg (show ¬(aoiGood.reprojOk = false) by simp [aoiGood]),
      if_neg (show ¬(aoiGood.geomEmptyAfterReproj = true) by simp [aoiGood]), hro]
    rfl
  have h := C5_amended Rect rectOps meta0 aoiGood 1 1 affine0 clipResult0 hclip
  exact ⟨h.1 0 rfl, h.2.2.1, h.2.2.2.1⟩

/-- C7, counterexample. The claim asserts that every reprojection invocation
with source CRS equal to the destination returns the input unchanged. The viz
reprojector in the transform module has no such short-circuit: invoked on the
float32 index raster with the destination equal to the raster's own CRS, it
still produces a resampled output rather than returning the input unchanged. -/
theorem C7_counterexample :
    floatMeta.crs = some crs32635 ∧
    reprojectRasterViz floatMeta floatMeta.crs ≠ ReprojResult.unchanged := by
  refine ⟨rfl, ?_⟩
  simp [reprojectRasterViz]

/-- C7, amended: the load-path reprojector short-circuits — whenever the
source CRS resolves to an EPSG code equal to the target, it returns the input
unchanged with no destination grid computed and no band resampled; the viz
reprojector in the transform module performs no such check. -/
theorem C7_amended :
    ∀ (src : RasterMeta) (c : Crs) (t : ℤ),
      src.crs = some c → c.epsg = some t →
      reprojectToEpsg src t = .ok .unchanged := by
  intro src c t hc he
  simp [reprojectToEpsg, hc, he]

/-- C7, witness for the amended theorem: a source already in EPSG 32635 asked
for EPSG 32635 is returned unchanged. -/
theorem C7_amended_witness : reprojectToEpsg floatMeta 32635 = .ok .unchanged :=
  C7_amended floatMeta crs32635 32635 rfl rfl

/-- C8, counterexample. The claim asserts every resampled band uses nearest
when its dtype is integer. The viz reprojector resamples a uint16 band with
bilinear: its resampling method is hardcoded and ignores the dtype, even
though the claimed rule would demand nearest for this band. -/
theorem C8_counterexample :
    meta0.dtype = "uint16" ∧ strStartsWith meta0.dtype "float" = false ∧
    methodForDtype meta0.dtype = Resampling.nearest ∧
    reprojectRasterViz meta0 (some crs3857) =
      ReprojResult.resampled [⟨Resampling.bilinear, some 0, some 0⟩] := by
  refine ⟨rfl, by decide, by decide, rfl⟩

/-- C8, amended: in the load-path reprojector every resampled band uses
bilinear exactly when its dtype name starts with "float" and nearest exactly
otherwise, and the source nodata value is passed through as both src_nodata
and dst_nodata; the viz reprojector resamples every band with bilinear
regardless of dtype (in the pipeline its input is always the float32 index
raster), with the source nodata carried on both sides via the band datasets. -/
theorem C8_amended :
    (∀ (src : RasterMeta) (t : ℤ) (bands : List BandResample),
        reprojectToEpsg src t = .ok (.resampled bands) →
        bands.length = src.count ∧
        ∀ b ∈ bands,
          (b.method = Resampling.bilinear ↔ strStartsWith src.dtype "float" = true) ∧
          (b.method = Resampling.nearest ↔ strStartsWith src.dtype "float" = false) ∧
          b.srcNodata = src.nodata ∧ b.dstNodata = src.nodata) ∧
    (∀ (src : RasterMeta) (c : Option Crs) (bands : List BandResample),
        reprojectRasterViz src c = .resampled bands →
        bands.length = src.count ∧
        ∀ b ∈ bands, b.method = Resampling.bilinear ∧
          b.srcNodata = src.nodata ∧ b.dstNodata = src.nodata) := by
  constructor
  · intro src t bands h
    cases hc : src.crs with
    | none =>
        simp only [reprojectToEpsg, hc] at h
        exact absurd h (by simp)
    | some c =>
        simp only [reprojectToEpsg, hc] at h
        by_cases hep : c.epsg = some t
        · rw [if_pos hep] at h
          simp at h
        · rw [if_neg hep] at h
          simp only [Except.ok.injEq, ReprojResult.resampled.injEq] at h
          subst h
          constructor
          · simp [RasterMeta.dtypes]
          · intro b hb
            simp only [RasterMeta.dtypes, List.mem_map, List.mem_replicate] at hb
            obtain ⟨dt, ⟨-, rfl⟩, rfl⟩ := hb
            by_cases hs : strStartsWith src.dtype "float" = true
            · simp [methodForDtype, hs]
            · rw [Bool.not_eq_true] at hs
              simp [methodForDtype, hs]
  · intro src c bands h
    simp only [reprojectRasterViz, ReprojResult.resampled.injEq] at h
    subst h
    constructor
    · simp [RasterMeta.dtypes]
    · intro b hb
      simp only [RasterMeta.dtypes, List.mem_map, List.mem_replicate] at hb
      obtain ⟨dt, ⟨-, -⟩, rfl⟩ := hb
      exact ⟨rfl, rfl, rfl⟩

/-- C8, witness for the amended theorem: reprojecting the float32 index raster
to a different EPSG resamples its single band with bilinear and carries the
-9999 nodata on both sides. -/
theorem C8_amended_witness :
    [bandBilinear].length = floatMeta.count ∧
    bandBilinear.method = Resampling.bilinear ∧
    bandBilinear.srcNodata = floatMeta.nodata := by
  have h := C8_amended.1 floatMeta 3857 [bandBilinear] (by rfl)
  exact ⟨h.1, (h.2 bandBilinear (by simp)).1.mpr (by decide),
    (h.2 bandBilinear (by simp)).2.2.1⟩

/-- C10. The UTM selector is the pure function of centroid longitude and
latitude given by zone = floor((longitude + 180) / 6) + 1 and EPSG code
32600 + zone for latitude at least 0, 32700 + zone for negative latitude; in
particular (15, 55) gives 32633, (15, -55) gives 32733, and longitude -177
lies in zone 1. -/
theorem C10_theorem :
    (∀ lon lat : ℚ, 0 ≤ lat →
        utmEpsgForLonlat lon lat = 32600 + (Int.floor ((lon + 180) / 6) + 1)) ∧
    (∀ lon lat : ℚ, lat < 0 →
        utmEpsgForLonlat lon lat = 32700 + (Int.floor ((lon + 180) / 6) + 1)) ∧
    utmEpsgForLonlat 15 55 = 32633 ∧
    utmEpsgForLonlat 15 (-55) = 32733 ∧
    Int.floor (((-177 : ℚ) + 180) / 6) + 1 = 1 := by
  refine ⟨?_, ?_, ?_, ?_, by norm_num⟩
  · intro lon lat h
    simp [utmEpsgForLonlat, h]
  · intro lon lat h
    simp [utmEpsgForLonlat, not_le.mpr h]
  · norm_num [utmEpsgForLonlat]
  · norm_num [utmEpsgForLonlat]

/-- C10, witness: the northern-hemisphere branch applied at (15, 55). -/
theorem C10_witness :
    utmEpsgForLonlat 15 55 = 32600 + (Int.floor (((15 : ℚ) + 180) / 6) + 1) :=
  C10_theorem.1 15 55 (by norm_num)

/-- Partition of a count: successes and failures of a Boolean test add up to
the list length. -/
theorem countPSplit {α : Type} (p : α → Bool) (l : List α) :
    l.countP p + l.countP (fun a => !p a) = l.length := by
  induction l with
  | nil => simp
  | cons a t ih =>
      simp only [List.countP_cons, List.length_cons]
      cases hpa : p a <;> simp [hpa] <;> omega

/-- Fold characterization of the scene loop: from any accumulator, the loop
adds one to the total per scene, counts successes and failures, and appends
one failure record per failed scene, in input order. -/
theorem pipelineFoldSpec {G : Type} (ops : GeomOps G) (aoi : AoiFile G)
    (scenes : List (Scene G)) : ∀ acc : Summary,
    scenes.foldl (pipelineStep ops aoi) acc =
      { total := acc.total + scenes.length,
        succeeded := acc.succeeded + scenes.countP (fun s => sceneOk ops aoi s),
        failed := acc.failed + scenes.countP (fun s => !sceneOk ops aoi s),
        failures := acc.failures ++ scenes.filterMap (sceneFailRecord ops aoi) } := by
  induction scenes with
  | nil =>
      intro acc
      simp
  | cons s t ih =>
      intro acc
      rw [List.foldl_cons, ih (pipelineStep ops aoi acc s)]
      cases hps : processScene ops aoi s with
      | ok v =>
          have hok : sceneOk ops aoi s = true := by simp [sceneOk, hps]
          have hfr : sceneFailRecord ops aoi s = none := by simp [sceneFailRecord, hps]
          simp [pipelineStep, hps, hok, hfr, List.countP_cons, List.filterMap_cons,
            Summary.mk.injEq, List.append_assoc]
          omega
      | error e =>
          have hok : sceneOk ops aoi s = false := by simp [sceneOk, hps]
          have hfr : sceneFailRecord ops aoi s = some (s.sceneId, e) := by
            simp [sceneFailRecord, hps]
          simp [pipelineStep, hps, hok, hfr, List.countP_cons, List.filterMap_cons,
            Summary.mk.injEq, List.append_assoc]
          omega

/-- C9, amended: every error raised during per-scene processing — the grid
mismatch and also the AOI configuration errors (empty AOI, AOI reprojection
failure, empty geometry after reprojection) and the overlap error — is caught
at the scene boundary and recorded with the scene id and its cause in the
batch summary; the loop attempts every scene, so no per-scene error aborts
processing of the remaining scenes, and no error aborts the run before the
scenes are processed. -/
theorem C9_amended :
    ∀ (G : Type) (ops : GeomOps G) (aoi : AoiFile G) (scenes : List (Scene G)),
      (run_pipeline ops aoi scenes).total = scenes.length ∧
      (run_pipeline ops aoi scenes).succeeded + (run_pipeline ops aoi scenes).failed =
        scenes.length ∧
      (run_pipeline ops aoi scenes).failures =
        scenes.filterMap (sceneFailRecord ops aoi) ∧
      (∀ s ∈ scenes, ∀ e : PErr, processScene ops aoi s = .error e →
        (s.sceneId, e) ∈ (run_pipeline ops aoi scenes).failures) := by
  intro G ops aoi scenes
  have h0 : run_pipeline ops aoi scenes =
      { total := 0 + scenes.length,
        succeeded := 0 + scenes.countP (fun s => sceneOk ops aoi s),
        failed := 0 + scenes.countP (fun s => !sceneOk ops aoi s),
        failures := [] ++ scenes.filterMap (sceneFailRecord ops aoi) } := by
    rw [run_pipeline, pipelineFoldSpec]
  rw [h0]
  refine ⟨by simp, ?_, by simp, ?_⟩
  · simpa using countPSplit (fun s => sceneOk ops aoi s) scenes
  · intro s hs e he
    simp only [List.nil_append]
    exact List.mem_filterMap.mpr ⟨s, hs, by simp [sceneFailRecord, he]⟩

/-- C9, counterexample. The claim asserts that an empty AOI aborts the entire
run before any scene is processed. The empty-AOI error is raised inside the
per-scene clip call, which runs inside the scene loop's catch-all handler: on
a two-scene batch with an empty AOI, both scenes are attempted, both failures
are recorded with their scene ids, and the loop runs to completion instead of
aborting before any scene. -/
theorem C9_counterexample :
    emptyAoiFile.empty = true ∧
    run_pipeline rectOps emptyAoiFile [scene1, scene2] =
      { total := 2, succeeded := 0, failed := 2,
        failures := [("S1", PErr.emptyAOI), ("S2", PErr.emptyAOI)] } := by
  have hga : gridAligned meta0 meta0 = true := by simp [gridAligned]
  have h1 : processScene rectOps emptyAoiFile scene1 = .error PErr.emptyAOI := by
    simp [processScene, scene1, rasterA, compute_ndvi, hga, clip_raster_to_aoi, emptyAoiFile]
  have h2 : processScene rectOps emptyAoiFile scene2 = .error PErr.emptyAOI := by
    simp [processScene, scene2, rasterA, compute_ndvi, hga, clip_raster_to_aoi, emptyAoiFile]
  refine ⟨rfl, ?_⟩
  simp only [run_pipeline, List.foldl_cons, List.foldl_nil, pipelineStep, h1, h2]
  rfl

/-- C9, witness for the amended theorem: with an empty AOI and one scene, the
scene is attempted and its failure is recorded with its id and cause. -/
theorem C9_amended_witness :
    (run_pipeline rectOps emptyAoiFile [scene1]).total = 1 ∧
    ("S1", PErr.emptyAOI) ∈ (run_pipeline rectOps emptyAoiFile [scene1]).failures := by
  have hga : gridAligned meta0 meta0 = true := by simp [gridAligned]
  have hps : processScene rectOps emptyAoiFile scene1 = .error PErr.emptyAOI := by
    simp [processScene, scene1, rasterA, compute_ndvi, hga, clip_raster_to_aoi, emptyAoiFile]
  have h := C9_amended Rect rectOps emptyAoiFile [scene1]
  exact ⟨by simpa using h.1, h.2.2.2 scene1 (by simp) PErr.emptyAOI hps⟩

end NdviEtl
